import Mathlib

/-!
Verification of the MedRAG-Core conversation frontend.

The definitions below are a shallow embedding of the TypeScript and
JavaScript sources of the repository:

* `src/frontend-3d/src/store/useAppStore.ts` — the Zustand store
  (`addMessage`, `updateLastMessage`, `clearMessages`, `toggleRedFlag`,
  `resetSymptomSelection`, `resetAll`, `getCurrentSymptomReport`);
* `src/frontend-3d/src/types/index.ts` — the data model
  (`ChatMessage`, `SymptomReport`, …); the TypeScript string-literal
  union types (`BodyRegion`, `SymptomType`, `OnsetTime`, `Trigger`,
  `RedFlag`, `InteractionMode`, `AppStep`) are embedded as `String`,
  matching their JavaScript runtime representation;
* the two `ChatPanel.tsx` variants (`src/unnamed/part_001`,
  `src/unnamed/part_002`) — message templates (`getOnsetMessage`,
  `getTriggerMessage`, `getRedFlagMessage`, `sendInitialMessage`),
  `formatSources`, the history construction shared by `sendToAPI`,
  `sendToAPINormal` and `sendToAPIWithStreaming`, the SSE chunk loop of
  `sendToAPIWithStreaming` with its catch/finally error handling, and
  the typewriter loop of `streamMessage`;
* `src/frontend-3d/src/data/bodyData.ts` — the `BODY_REGIONS` and
  `SYMPTOMS` lookup tables (only the `name_tr`/`name_en` fields are
  embedded; 3D positions, colors, icons and per-region symptom lists
  are UI-only data that no store or template logic reads).

Nondeterministic effects are passed explicitly: `crypto.randomUUID()`
becomes a `newId : String` parameter and `new Date()` a `ts : Nat`
parameter.  The backend emergency detector lives in
`backend/app/health_filter.py`, which is not under `src/`; it is
modelled from the specification (see `isEmergencyText`).
-/

namespace MedRAG

/-- Message role: the TypeScript union of the literals user and assistant. -/
inductive Role where
  | user
  | assistant
deriving Repr, DecidableEq

/-- `SymptomReport` from `types/index.ts`.  `region`, `symptom`, `onset`
and `trigger` hold the string ids of the TypeScript literal unions;
`severity` is the integer 0–10. -/
structure SymptomReport where
  region : String
  symptom : String
  severity : Nat
  onset : String
  trigger : Option String := none
  redFlags : List String := []
  additionalNotes : Option String := none
deriving Repr, DecidableEq

/-- `ChatMessage` from `types/index.ts`. -/
structure ChatMessage where
  id : String
  role : Role
  content : String
  content_en : Option String := none
  timestamp : Nat
  symptomContext : Option SymptomReport := none
  isEmergency : Option Bool := none
  imageUrl : Option String := none
deriving Repr, DecidableEq

/-- The argument of `addMessage`: a `ChatMessage` minus the generated id and timestamp fields. -/
structure NewMessage where
  role : Role
  content : String
  content_en : Option String := none
  symptomContext : Option SymptomReport := none
  isEmergency : Option Bool := none
  imageUrl : Option String := none
deriving Repr, DecidableEq

/-- The Zustand store state (`AppState` in `useAppStore.ts`), restricted
to its data fields; the setter closures become the functions below. -/
structure AppState where
  interactionMode : Option String
  currentStep : String
  selectedRegion : Option String
  hoveredRegion : Option String
  selectedSymptom : Option String
  severity : Nat
  onset : Option String
  trigger : Option String
  redFlags : List String
  additionalNotes : String
  messages : List ChatMessage
  isLoading : Bool
  isStreaming : Bool
deriving Repr

/-- The initial store values passed to `create` in `useAppStore.ts`. -/
def initialAppState : AppState :=
  { interactionMode := none
    currentStep := "welcome"
    selectedRegion := none
    hoveredRegion := none
    selectedSymptom := none
    severity := 5
    onset := none
    trigger := none
    redFlags := []
    additionalNotes := ""
    messages := []
    isLoading := false
    isStreaming := false }

/-- Builds the stored message from the argument of `addMessage` together with
the generated `crypto.randomUUID()` and `new Date()` values. -/
def mkChatMessage (m : NewMessage) (newId : String) (ts : Nat) : ChatMessage :=
  { id := newId
    role := m.role
    content := m.content
    content_en := m.content_en
    timestamp := ts
    symptomContext := m.symptomContext
    isEmergency := m.isEmergency
    imageUrl := m.imageUrl }

/-- `addMessage` from `useAppStore.ts`: spreads the old array and pushes
one new message with a fresh id and timestamp. -/
def addMessage (s : AppState) (m : NewMessage) (newId : String) (ts : Nat) : AppState :=
  { s with messages := s.messages ++ [mkChatMessage m newId ts] }

/-- The array mutation inside `updateLastMessage`: if the list is
nonempty, the final element is replaced by a copy whose `content` field
is the new content (`{...newMessages[len-1], content}`). -/
def updateLast : List ChatMessage → String → List ChatMessage
  | [], _ => []
  | [m], c => [{ m with content := c }]
  | m :: m' :: rest, c => m :: updateLast (m' :: rest) c

/-- `updateLastMessage` from `useAppStore.ts`. -/
def updateLastMessage (s : AppState) (content : String) : AppState :=
  { s with messages := updateLast s.messages content }

/-- `clearMessages` from `useAppStore.ts`. -/
def clearMessages (s : AppState) : AppState :=
  { s with messages := [] }

/-- `toggleRedFlag` from `useAppStore.ts`: remove the flag if present
(`filter(f => f !== flag)`), otherwise append it. -/
def toggleRedFlag (s : AppState) (flag : String) : AppState :=
  { s with redFlags :=
      if flag ∈ s.redFlags then
        s.redFlags.filter (fun f => f ≠ flag)
      else
        s.redFlags ++ [flag] }

/-- `setCurrentStep` from `useAppStore.ts`. -/
def setCurrentStep (s : AppState) (step : String) : AppState :=
  { s with currentStep := step }

/-- `resetSymptomSelection` from `useAppStore.ts`. -/
def resetSymptomSelection (s : AppState) : AppState :=
  { s with
    selectedRegion := none
    selectedSymptom := none
    severity := 5
    onset := none
    trigger := none
    redFlags := []
    additionalNotes := "" }

/-- `resetAll` from `useAppStore.ts`. -/
def resetAll (_s : AppState) : AppState :=
  { interactionMode := none
    currentStep := "welcome"
    selectedRegion := none
    hoveredRegion := none
    selectedSymptom := none
    severity := 5
    onset := none
    trigger := none
    redFlags := []
    additionalNotes := ""
    messages := []
    isLoading := false
    isStreaming := false }

/-- `getCurrentSymptomReport` from `useAppStore.ts`: `null` unless a
region, a symptom and an onset are all selected; `trigger ?? undefined`
keeps the option, `additionalNotes || undefined` maps the empty string
to `undefined`. -/
def getCurrentSymptomReport (s : AppState) : Option SymptomReport :=
  match s.selectedRegion, s.selectedSymptom, s.onset with
  | some r, some sym, some o =>
      some { region := r
             symptom := sym
             severity := s.severity
             onset := o
             trigger := s.trigger
             redFlags := s.redFlags
             additionalNotes :=
               if s.additionalNotes = "" then none else some s.additionalNotes }
  | _, _, _ => none

/-- `handleNewComplaint` from `ChatPanel.tsx` (store effects only; the
`initialMessageSent` ref is component-local and not part of the store). -/
def handleNewComplaint (s : AppState) : AppState :=
  if s.interactionMode = some "direct_chat" then
    clearMessages (resetSymptomSelection s)
  else
    setCurrentStep (resetSymptomSelection s) "body_selection"

/-- `handleBackToHome` from `ChatPanel.tsx`. -/
def handleBackToHome (s : AppState) : AppState :=
  resetAll s

/-! ### Lookup tables (`bodyData.ts`, `ChatPanel.tsx`)

JavaScript object indexing `table[key]` with a `|| ''` fallback is
embedded as an association-list lookup `tableGet`; plain `table[key]`
(which crashes at runtime on a missing key via `undefined.field`)
becomes the option-valued `tableFind`. -/

/-- Association-list lookup with the `|| ''` fallback used by the
message-template helpers. -/
def tableGet : List (String × String) → String → String
  | [], _ => ""
  | (k, v) :: rest, key => if key = k then v else tableGet rest key

/-- Association-list lookup returning `none` for a missing key. -/
def tableFind {α : Type} : List (String × α) → String → Option α
  | [], _ => none
  | (k, v) :: rest, key => if key = k then some v else tableFind rest key

/-- Region names from `BODY_REGIONS` in `bodyData.ts` (Turkish and
English display names keyed by region id). -/
structure RegionInfo where
  name_tr : String
  name_en : String
deriving Repr, DecidableEq

/-- Symptom names from `SYMPTOMS` in `bodyData.ts`. -/
structure SymptomInfo where
  name_tr : String
  name_en : String
deriving Repr, DecidableEq

/-- `BODY_REGIONS` from `bodyData.ts`. -/
def BODY_REGIONS : List (String × RegionInfo) :=
  [ ("head", ⟨"Baş", "Head"⟩)
  , ("neck", ⟨"Boyun", "Neck"⟩)
  , ("chest", ⟨"Göğüs", "Chest"⟩)
  , ("abdomen", ⟨"Karın", "Abdomen"⟩)
  , ("back_upper", ⟨"Üst Sırt", "Upper Back"⟩)
  , ("back_lower", ⟨"Bel", "Lower Back"⟩)
  , ("left_shoulder", ⟨"Sol Omuz", "Left Shoulder"⟩)
  , ("right_shoulder", ⟨"Sağ Omuz", "Right Shoulder"⟩)
  , ("left_upper_arm", ⟨"Sol Üst Kol", "Left Upper Arm"⟩)
  , ("right_upper_arm", ⟨"Sağ Üst Kol", "Right Upper Arm"⟩)
  , ("left_forearm", ⟨"Sol Ön Kol", "Left Forearm"⟩)
  , ("right_forearm", ⟨"Sağ Ön Kol", "Right Forearm"⟩)
  , ("left_hand", ⟨"Sol El", "Left Hand"⟩)
  , ("right_hand", ⟨"Sağ El", "Right Hand"⟩)
  , ("left_hip", ⟨"Sol Kalça", "Left Hip"⟩)
  , ("right_hip", ⟨"Sağ Kalça", "Right Hip"⟩)
  , ("left_upper_leg", ⟨"Sol Üst Bacak", "Left Upper Leg"⟩)
  , ("right_upper_leg", ⟨"Sağ Üst Bacak", "Right Upper Leg"⟩)
  , ("left_knee", ⟨"Sol Diz", "Left Knee"⟩)
  , ("right_knee", ⟨"Sağ Diz", "Right Knee"⟩)
  , ("left_shin", ⟨"Sol Kaval Kemiği", "Left Shin (Tibia)"⟩)
  , ("right_shin", ⟨"Sağ Kaval Kemiği", "Right Shin (Tibia)"⟩)
  , ("left_foot", ⟨"Sol Ayak", "Left Foot"⟩)
  , ("right_foot", ⟨"Sağ Ayak", "Right Foot"⟩) ]

/-- `SYMPTOMS` from `bodyData.ts`.  The source object has exactly these
12 entries; in particular the `tightness` id of the `SymptomType` union
has no row, so indexing it yields `undefined` in the source (a crash at
`.name_tr`), which `tableFind` models as `none`. -/
def SYMPTOMS : List (String × SymptomInfo) :=
  [ ("pain", ⟨"Ağrı", "Pain"⟩)
  , ("swelling", ⟨"Şişlik", "Swelling"⟩)
  , ("numbness", ⟨"Uyuşma", "Numbness"⟩)
  , ("tingling", ⟨"Karıncalanma", "Tingling"⟩)
  , ("bruise", ⟨"Morluk", "Bruise"⟩)
  , ("cut", ⟨"Kesik", "Cut"⟩)
  , ("burn", ⟨"Yanık", "Burn"⟩)
  , ("rash", ⟨"Döküntü", "Rash"⟩)
  , ("stiffness", ⟨"Sertlik/Tutulma", "Stiffness"⟩)
  , ("weakness", ⟨"Güçsüzlük", "Weakness"⟩)
  , ("cramp", ⟨"Kramp", "Cramp"⟩)
  , ("bleeding", ⟨"Kanama", "Bleeding"⟩) ]

/-- `onsetMessages` inside `getOnsetMessage` (`ChatPanel.tsx`). -/
def onsetMessages : List (String × String) :=
  [ ("just_now", "Az önce başladı.")
  , ("few_hours", "Birkaç saat önce başladı.")
  , ("today", "Bugün başladı.")
  , ("1_day", "Yaklaşık 1 gündür var.")
  , ("2_3_days", "2-3 gündür devam ediyor.")
  , ("1_week", "Yaklaşık 1 haftadır var.")
  , ("more_than_week", "1 haftadan uzun süredir devam ediyor.")
  , ("chronic", "Kronik bir şikayetim, sürekli yaşıyorum.") ]

/-- `triggerMessages` inside `getTriggerMessage` (`ChatPanel.tsx`). -/
def triggerMessages : List (String × String) :=
  [ ("injury", "Bir darbe veya yaralanma sonrası oluştu.")
  , ("after_exercise", "Egzersiz yaptıktan sonra ortaya çıktı.")
  , ("after_running", "Koştuktan sonra başladı.")
  , ("after_eating", "Yemek yedikten sonra başladı.")
  , ("stress", "Stresli bir dönemde ortaya çıktı.")
  , ("morning", "Genellikle sabahları daha belirgin.")
  , ("evening", "Genellikle akşamları daha belirgin.")
  , ("unknown", "Ne zaman veya neden başladığını bilmiyorum.") ]

/-- `flagMessages` inside `getRedFlagMessage` (`ChatPanel.tsx`). -/
def flagMessages : List (String × String) :=
  [ ("cannot_bear_weight", "Üzerine basamıyorum.")
  , ("severe_pain", "Ağrı çok şiddetli.")
  , ("visible_deformity", "Görünür bir şekil bozukluğu var.")
  , ("loss_of_consciousness", "Bilinç kaybı yaşadım.")
  , ("difficulty_breathing", "Nefes almakta zorlanıyorum.")
  , ("chest_pain", "Göğsümde ağrı var.")
  , ("high_fever", "Yüksek ateşim var.")
  , ("confusion", "Bilinç bulanıklığı yaşıyorum.")
  , ("severe_bleeding", "Şiddetli kanama var.")
  , ("numbness_spreading", "Uyuşukluk yayılıyor.") ]

/-- `getOnsetMessage` from `ChatPanel.tsx`: `onsetMessages[onsetId] || ''`. -/
def getOnsetMessage (onsetId : String) : String :=
  tableGet onsetMessages onsetId

/-- `getTriggerMessage` from `ChatPanel.tsx`: `triggerMessages[triggerId] || ''`. -/
def getTriggerMessage (triggerId : String) : String :=
  tableGet triggerMessages triggerId

/-- `getRedFlagMessage` from `ChatPanel.tsx`: `flagMessages[flagId] || ''`. -/
def getRedFlagMessage (flagId : String) : String :=
  tableGet flagMessages flagId

/-! ### The synthesized first user turn (`sendInitialMessage`) -/

/-- JavaScript `String.prototype.toLowerCase` restricted to the
characters that occur in the Turkish string tables of the app: ASCII upper
case letters plus the Turkish upper-case letters Ç, Ğ, İ, Ö, Ş, Ü
(`İ` lowercases, per Unicode default case conversion, to the two code
points `i` + combining dot above). -/
def jsCharLower (c : Char) : List Char :=
  if c = 'Ç' then ['ç']
  else if c = 'Ğ' then ['ğ']
  else if c = 'İ' then ['i', '\u0307']
  else if c = 'Ö' then ['ö']
  else if c = 'Ş' then ['ş']
  else if c = 'Ü' then ['ü']
  else [c.toLower]

/-- `toLowerCase()` on a whole string. -/
def jsToLower (s : String) : String :=
  ⟨s.data.flatMap jsCharLower⟩

/-- `Array.prototype.join(sep)`. -/
def joinWith (sep : String) : List String → String
  | [] => ""
  | [x] => x
  | x :: y :: rest => x ++ sep ++ joinWith sep (y :: rest)

/-- The user-turn text built by `sendInitialMessage` in `ChatPanel.tsx`
from the completed report, given the already looked-up
`region.name_tr` and `symptom.name_tr`.  It mirrors the sequence of
`userMessage += …` statements, including the JavaScript truthiness
tests on `report.trigger` and `report.additionalNotes`. -/
def initialUserMessage (regionNameTr symptomNameTr : String) (report : SymptomReport) : String :=
  let m1 := regionNameTr ++ " bölgemde " ++ jsToLower symptomNameTr ++ " var."
  let m2 := m1 ++ " Şiddeti 10 üzerinden " ++ toString report.severity ++ "."
  let m3 := m2 ++ " " ++ getOnsetMessage report.onset
  let m4 :=
    match report.trigger with
    | some t => if t = "" then m3 else m3 ++ " " ++ getTriggerMessage t
    | none => m3
  let m5 :=
    if report.redFlags.length > 0 then
      m4 ++ " " ++
        joinWith " " ((report.redFlags.map getRedFlagMessage).filter (fun s => s ≠ ""))
    else m4
  match report.additionalNotes with
  | some n => if n = "" then m5 else m5 ++ " " ++ n
  | none => m5

/-- The text of `sendInitialMessage`, starting from the report alone:
`BODY_REGIONS[report.region]` and `SYMPTOMS[report.symptom]` must
resolve (indexing a missing key would crash at `.name_tr`). -/
def sendInitialMessageText (report : SymptomReport) : Option String :=
  match tableFind BODY_REGIONS report.region, tableFind SYMPTOMS report.symptom with
  | some ri, some si => some (initialUserMessage ri.name_tr si.name_tr report)
  | _, _ => none

/-- The store effect of `sendInitialMessage`: exactly one user message
is appended (`addMessage` with the user role and the report as
`symptomContext`) before the API call. -/
def sendInitialMessageState (s : AppState) (report : SymptomReport)
    (newId : String) (ts : Nat) : Option AppState :=
  (sendInitialMessageText report).map fun msg =>
    addMessage s
      { role := Role.user, content := msg, symptomContext := some report }
      newId ts

/-! ### RAG source citations (`formatSources`, identical in both
`ChatPanel.tsx` variants) -/

/-- One element of `data.sources`; `relevance_score` (a JSON number) is
embedded as a rational. -/
structure RagSource where
  title : String
  source : String
  category : String
  relevance_score : ℚ
deriving Repr, DecidableEq

/-- The `• title (source)` line built for one cited source. -/
def sourceLine (s : RagSource) : String :=
  "• " ++ s.title ++ " (" ++ s.source ++ ")"

/-- The threshold literal `0.3` as a rational. -/
def scoreThreshold : ℚ := mkRat 3 10

/-- The sources that survive `filter(s => s.relevance_score > 0.3)`
followed by `slice(0, 3)`. -/
def citedSources (sources : List RagSource) : List RagSource :=
  (sources.filter (fun s => scoreThreshold < s.relevance_score)).take 3

/-- `formatSources` from `ChatPanel.tsx`. -/
def formatSources (sources : List RagSource) : String :=
  if sources.length = 0 then ""
  else
    let sourceLines := joinWith "\n" ((citedSources sources).map sourceLine)
    if sourceLines = "" then ""
    else "\n\n📚 **Kaynaklar:**\n" ++ sourceLines

/-! ### Request history (`messages.slice(-10).map(...)`, shared verbatim
by `sendToAPIWithStreaming`, `sendToAPINormal` (part_001) and
`sendToAPI` (part_002)) -/

/-- One entry of the `history` field sent to `/chat`, `/rag/chat` and
`/rag/chat/stream`. -/
structure HistoryEntry where
  role : Role
  content : String
  content_en : Option String
deriving Repr, DecidableEq

/-- `Array.prototype.slice(-10)`: the at most 10 most recent elements. -/
def jsSliceLast10 (l : List ChatMessage) : List ChatMessage :=
  l.drop (l.length - 10)

/-- The projection applied to each included message. -/
def historyEntryOf (m : ChatMessage) : HistoryEntry :=
  { role := m.role, content := m.content, content_en := m.content_en }

/-- The `history` request field built from the current message list. -/
def buildHistory (messages : List ChatMessage) : List HistoryEntry :=
  (jsSliceLast10 messages).map historyEntryOf

/-! ### SSE streaming (`sendToAPIWithStreaming`, part_001) -/

/-- The error text used by both error paths of `ChatPanel.tsx`. -/
def errorText : String := "❌ Bir hata oluştu. Lütfen tekrar deneyin."

/-- The empty assistant message appended when the first chunk arrives. -/
def emptyAssistantMessage : NewMessage :=
  { role := Role.assistant, content := "", isEmergency := some false }

/-- The empty assistant message appended by `streamMessage` before its
typewriter loop (carries `content_en` and `isEmergency`). -/
def typewriterSeedMessage (contentEn : Option String) (isEmergency : Option Bool) : NewMessage :=
  { role := Role.assistant, content := "", content_en := contentEn, isEmergency := isEmergency }

/-- Processing of one `{"type":"chunk"}` event: on the first chunk the
client enters streaming mode and appends an empty assistant message;
the cumulative `data.content` of every chunk then replaces the content
of the last message via `updateLastMessage`. -/
def chunkStep (newId : String) (ts : Nat) (acc : AppState × Bool) (c : String) :
    AppState × Bool :=
  if acc.2 then
    (updateLastMessage acc.1 c, true)
  else
    let s1 := { acc.1 with isStreaming := true }
    let s2 := addMessage s1 emptyAssistantMessage newId ts
    (updateLastMessage s2 c, true)

/-- The chunk-event loop of `sendToAPIWithStreaming`, applied to the
sequence of cumulative `data.content` strings received; the boolean is
the `streamingStarted` flag. -/
def runChunks (s : AppState) (chunks : List String) (newId : String) (ts : Nat) :
    AppState × Bool :=
  chunks.foldl (chunkStep newId ts) (s, false)

/-- `sendToAPIWithStreaming` when the request fails (an exception is
thrown) after `chunks` chunk events were delivered: the try block runs
the chunk loop, the catch block updates the incomplete message in place
(if streaming had started) or appends a fresh assistant error message
(if not), and the finally block clears `isLoading` and `isStreaming`. -/
def streamingFailureRun (s : AppState) (chunks : List String) (newId : String)
    (ts : Nat) : AppState :=
  let s0 := { s with isLoading := true }
  let res := runChunks s0 chunks newId ts
  let s1 :=
    if res.2 then updateLastMessage res.1 errorText
    else addMessage res.1 { role := Role.assistant, content := errorText } newId ts
  { s1 with isLoading := false, isStreaming := false }

/-! ### Typewriter streaming (`streamMessage`, part_002) -/

/-- `String.prototype.slice(0, n)`: the first `n` characters. -/
def jsTake (s : String) (n : Nat) : String :=
  ⟨s.data.take n⟩

/-- The `while (currentIndex < totalLength)` loop of `streamMessage`:
each iteration advances by `chunkSize = 3` (clamped to the total
length) and replaces the content of the last message with
`fullContent.slice(0, nextIndex)`. -/
def typewriterLoop (full : String) (i : Nat) (s : AppState) : AppState :=
  if h : i < full.length then
    typewriterLoop full (min (i + 3) full.length)
      (updateLastMessage s (jsTake full (min (i + 3) full.length)))
  else s
termination_by full.length - i
decreasing_by omega

/-- `streamMessage` from `ChatPanel.tsx` (part_002): enter streaming
mode, append an empty assistant message carrying `content_en` and
`isEmergency`, run the typewriter loop over `fullContent`, and leave
streaming mode. -/
def streamMessageRun (s : AppState) (fullContent : String) (isEmergency : Option Bool)
    (contentEn : Option String) (newId : String) (ts : Nat) : AppState :=
  let s1 := { s with isStreaming := true }
  let s2 := addMessage s1 (typewriterSeedMessage contentEn isEmergency) newId ts
  let s3 := typewriterLoop fullContent 0 s2
  { s3 with isStreaming := false }

/-! ### Emergency detection (modelled from the spec)

The emergency detector lives in `backend/app/health_filter.py`, which
is not under `src/`; the definitions of this section are therefore
modelled from the specification rather than translated from source. -/

/-- Splits a character list into its maximal runs of alphabetic
characters (the accumulator holds the current run, reversed). -/
def wordRunsAux : List Char → List Char → List (List Char)
  | [], acc => if acc.isEmpty then [] else [acc.reverse]
  | c :: cs, acc =>
      if c.isAlpha then wordRunsAux cs (c :: acc)
      else if acc.isEmpty then wordRunsAux cs []
      else acc.reverse :: wordRunsAux cs []

/-- Modelled from the spec: tokenization used by the emergency
detector — lower-cased alphabetic words, with punctuation (including
apostrophes) acting as separators. -/
def tokenizeWords (s : String) : List String :=
  (wordRunsAux s.data []).map fun cs => ⟨cs.map Char.toLower⟩

/-- Modelled from the spec: the seed red-flag lexical patterns of
§4.1/§8 (the breathing-distress phrase, «chest pain», «unconscious»)
as token sequences of `tokenizeWords`. -/
def RED_FLAG_PATTERNS : List (List String) :=
  [ ["can", "t", "breathe"]
  , ["chest", "pain"]
  , ["unconscious"] ]

/-- Modelled from the spec: negation cues whose presence shortly before
a red-flag match suppresses it. -/
def NEGATION_CUES : List String :=
  ["no", "not", "without", "denies", "never"]

/-- Modelled from the spec: the bounded negation window (in tokens)
preceding a match; the spec leaves the exact size configurable. -/
def NEGATION_WINDOW : Nat := 3

/-- Does `pat` occur at token position `i`? -/
def matchedAt (toks pat : List String) (i : Nat) : Bool :=
  pat.isPrefixOf (toks.drop i)

/-- Is there a negation cue within the window preceding position `i`? -/
def negationBefore (toks : List String) (i : Nat) : Bool :=
  ((toks.take i).drop (i - NEGATION_WINDOW)).any fun t => NEGATION_CUES.contains t

/-- Modelled from the spec: the negation-aware emergency detector — a
red-flag pattern match sets the flag unless a negation cue appears
within the bounded window preceding the match. -/
def isEmergencyText (s : String) : Bool :=
  let toks := tokenizeWords s
  (List.range toks.length).any fun i =>
    RED_FLAG_PATTERNS.any fun pat => matchedAt toks pat i && !negationBefore toks i

/-! ### Helper lemmas -/

/-- `updateLast` rewrites exactly the content of the final element. -/
theorem updateLast_append : ∀ (xs : List ChatMessage) (m : ChatMessage) (c : String),
    updateLast (xs ++ [m]) c = xs ++ [{ m with content := c }]
  | [], _, _ => rfl
  | [_], _, _ => rfl
  | a :: b :: xs, m, c => by
      have ih := updateLast_append (b :: xs) m c
      show a :: updateLast ((b :: xs) ++ [m]) c = a :: ((b :: xs) ++ [{ m with content := c }])
      rw [ih]

/-- `updateLastMessage` on a state whose history ends in `m` rewrites
exactly the content of `m`. -/
theorem updateLastMessage_snoc (s : AppState) (base : List ChatMessage)
    (m : ChatMessage) (c : String) (h : s.messages = base ++ [m]) :
    (updateLastMessage s c).messages = base ++ [{ m with content := c }] := by
  simp [updateLastMessage, h, updateLast_append]

/-- `slice(0, s.length)` is the whole string. -/
theorem jsTake_length (s : String) : jsTake s s.length = s := by
  show String.mk (s.data.take s.data.length) = s
  rw [List.take_length]

/-- A lookup with a key outside the table falls back to the empty
string. -/
theorem tableGet_not_mem :
    ∀ (tbl : List (String × String)) (key : String),
    key ∉ tbl.map Prod.fst → tableGet tbl key = ""
  | [], _, _ => rfl
  | (k, v) :: rest, key, h => by
      simp only [List.map_cons, List.mem_cons, not_or] at h
      simp only [tableGet, if_neg h.1]
      exact tableGet_not_mem rest key h.2

/-- The typewriter loop only ever rewrites the content of the final
message, and when it runs at all it ends with the full text. -/
theorem typewriterLoop_messages (full : String) :
    ∀ (i : Nat) (s : AppState) (base : List ChatMessage) (m : ChatMessage),
    s.messages = base ++ [m] →
    (typewriterLoop full i s).messages =
      base ++ [if i < full.length then { m with content := full } else m]
  | i, s, base, m, hm => by
      by_cases h : i < full.length
      · rw [typewriterLoop, dif_pos h]
        have hm' : (updateLastMessage s (jsTake full (min (i + 3) full.length))).messages
            = base ++ [{ m with content := jsTake full (min (i + 3) full.length) }] := by
          simp [updateLastMessage, hm, updateLast_append]
        rw [typewriterLoop_messages full (min (i + 3) full.length) _ base _ hm']
        by_cases h2 : min (i + 3) full.length < full.length
        · simp [h, h2]
        · have hj : min (i + 3) full.length = full.length := by omega
          simp [h, h2, hj, jsTake_length]
      · rw [typewriterLoop, dif_neg h, if_neg h, hm]
  termination_by i => full.length - i
  decreasing_by omega

/-- Once `streamingStarted` is set, every further chunk event only
rewrites the content of the final message, ending with the last
cumulative content received. -/
theorem foldChunks_started (newId : String) (ts : Nat) :
    ∀ (chunks : List String) (s : AppState) (base : List ChatMessage) (m : ChatMessage),
    s.messages = base ++ [m] →
    (chunks.foldl (chunkStep newId ts) (s, true)).2 = true ∧
    (chunks.foldl (chunkStep newId ts) (s, true)).1.messages
      = base ++ [{ m with content := chunks.getLastD m.content }]
  | [], s, base, m, hm => ⟨rfl, by simpa [List.getLastD] using hm⟩
  | c :: cs, s, base, m, hm => by
      have hm' : (updateLastMessage s c).messages = base ++ [{ m with content := c }] := by
        simp [updateLastMessage, hm, updateLast_append]
      have ih := foldChunks_started newId ts cs (updateLastMessage s c) base
        { m with content := c } hm'
      have hstep : chunkStep newId ts (s, true) c = (updateLastMessage s c, true) := rfl
      rw [List.foldl_cons, hstep, List.getLastD_cons]
      exact ih

/-- A string whose first factor is nonempty is nonempty. -/
theorem append_ne_empty_of_left (a b : String) (ha : a.data ≠ []) : a ++ b ≠ "" := by
  intro hab
  apply ha
  have hd : (a ++ b).data = ([] : List Char) := by rw [hab]
  rw [String.data_append] at hd
  exact (List.append_eq_nil.mp hd).1

/-- A source line always starts with the bullet marker. -/
theorem sourceLine_data_ne_nil (s : RagSource) : (sourceLine s).data ≠ [] := by
  simp only [sourceLine]
  rw [String.data_append, String.data_append, String.data_append]
  simp

/-- Joining a list whose head is nonempty yields a nonempty string. -/
theorem joinWith_cons_ne_empty (sep x : String) (xs : List String)
    (hx : x.data ≠ []) : joinWith sep (x :: xs) ≠ "" := by
  cases xs with
  | nil =>
      intro h
      apply hx
      have := congrArg String.data h
      simpa [joinWith] using this
  | cons y ys =>
      show x ++ sep ++ joinWith sep (y :: ys) ≠ ""
      have : (x ++ sep).data ≠ [] := by
        rw [String.data_append]
        intro h
        exact hx (List.append_eq_nil.mp h).1
      exact append_ne_empty_of_left _ _ this

/-- The parenthesization of the text of `sendInitialMessage` into the six
per-field template parts, in the order they are concatenated. -/
theorem initialUserMessage_decomposition (rn sn : String) (r : SymptomReport) :
    initialUserMessage rn sn r =
      (rn ++ " bölgemde " ++ jsToLower sn ++ " var.") ++
      (" Şiddeti 10 üzerinden " ++ toString r.severity ++ ".") ++
      (" " ++ getOnsetMessage r.onset) ++
      (match r.trigger with
       | some t => if t = "" then "" else " " ++ getTriggerMessage t
       | none => "") ++
      (if r.redFlags.length > 0 then
        " " ++ joinWith " " ((r.redFlags.map getRedFlagMessage).filter (fun x => x ≠ ""))
       else "") ++
      (match r.additionalNotes with
       | some n => if n = "" then "" else " " ++ n
       | none => "") := by
  simp only [initialUserMessage]
  rcases r.trigger with _ | t <;> rcases r.additionalNotes with _ | n <;>
    by_cases hf : r.redFlags.length > 0 <;>
      simp only [hf, if_true, if_false, reduceIte] <;> (try split_ifs) <;>
        (apply String.ext; simp [String.data_append])

/-! ### Concrete instances used by witnesses and counterexamples -/

/-- A sample stored message. -/
def demoMsg : ChatMessage :=
  { id := "m1", role := Role.assistant, content := "Merhaba", timestamp := 0 }

/-- A sample store state holding one message. -/
def demoState : AppState :=
  { initialAppState with messages := [demoMsg] }

/-- A sample store state in direct-chat mode. -/
def directChatState : AppState :=
  { initialAppState with interactionMode := some "direct_chat", messages := [demoMsg] }

/-- The report of the intake scenario of the spec: `severity=7`,
`onset=2_3_days`, `red_flags=[cannot_bear_weight]` on a left-shin pain
complaint. -/
def scenarioReport : SymptomReport :=
  { region := "left_shin", symptom := "pain", severity := 7, onset := "2_3_days",
    trigger := none, redFlags := ["cannot_bear_weight"], additionalNotes := none }

/-- A state whose red-flag selection contains `chest_pain` followed by
`severe_pain`. -/
def c9State : AppState :=
  { initialAppState with redFlags := ["chest_pain", "severe_pain"] }

/-! ### Claims -/

/-- C4: the turn history is append-only except for its most recent
entry: `addMessage` returns the old list with exactly one new message
appended at the end, and `updateLastMessage` changes only the `content`
field of the final message — every earlier message and every other
field of the final message is kept — and is the identity on an empty
list. -/
theorem c4_history_append_only :
    (∀ (s : AppState) (m : NewMessage) (newId : String) (ts : Nat),
        (addMessage s m newId ts).messages = s.messages ++ [mkChatMessage m newId ts]) ∧
    (∀ (s : AppState) (xs : List ChatMessage) (m : ChatMessage) (c : String),
        s.messages = xs ++ [m] →
        (updateLastMessage s c).messages = xs ++ [{ m with content := c }]) ∧
    (∀ (s : AppState) (c : String),
        s.messages = [] → (updateLastMessage s c).messages = []) := by
  refine ⟨fun _ _ _ _ => rfl, fun s xs m c h => ?_, fun s c h => ?_⟩
  · simp [updateLastMessage, h, updateLast_append]
  · simp [updateLastMessage, h, updateLast]

/-- Witness for C4 at a one-message state. -/
theorem c4_history_append_only_witness :
    (updateLastMessage demoState "Merhaba dünya").messages =
      [{ demoMsg with content := "Merhaba dünya" }] :=
  c4_history_append_only.2.1 demoState [] demoMsg "Merhaba dünya" rfl

/-- C8: `resetSymptomSelection` restores exactly the structured-intake
fields to their initial values, leaving the message history, the
interaction mode and the current step unchanged; in direct-chat mode
`handleNewComplaint` additionally clears the messages; and `resetAll`
returns the full initial state (interaction mode `null`, step
`welcome`, empty message list, every other field initial). -/
theorem c8_reset_frame :
    (∀ s : AppState,
        resetSymptomSelection s =
          { s with selectedRegion := none, selectedSymptom := none, severity := 5,
                   onset := none, trigger := none, redFlags := [],
                   additionalNotes := "" } ∧
        (resetSymptomSelection s).messages = s.messages ∧
        (resetSymptomSelection s).interactionMode = s.interactionMode ∧
        (resetSymptomSelection s).currentStep = s.currentStep) ∧
    (∀ s : AppState, s.interactionMode = some "direct_chat" →
        handleNewComplaint s = clearMessages (resetSymptomSelection s) ∧
        (handleNewComplaint s).messages = []) ∧
    (∀ s : AppState, resetAll s = initialAppState) := by
  refine ⟨fun s => ⟨rfl, rfl, rfl, rfl⟩, fun s h => ?_, fun _ => rfl⟩
  constructor <;> simp [handleNewComplaint, h, clearMessages]

/-- Witness for C8 in direct-chat mode. -/
theorem c8_reset_frame_witness : (handleNewComplaint directChatState).messages = [] :=
  (c8_reset_frame.2.1 directChatState rfl).2

/-- C9 counterexample: the double toggle is not the identity on the
`redFlags` list — toggling `chest_pain` twice on the duplicate-free
selection `[chest_pain, severe_pain]` moves it to the end. -/
theorem c9_counterexample :
    c9State.redFlags.Nodup ∧
    (toggleRedFlag (toggleRedFlag c9State "chest_pain") "chest_pain").redFlags ≠
      c9State.redFlags := by
  constructor
  · decide
  · decide

/-- The `redFlags` component of a toggle on a selected flag. -/
theorem toggle_redFlags_pos (s : AppState) (flag : String) (h : flag ∈ s.redFlags) :
    (toggleRedFlag s flag).redFlags = s.redFlags.filter (fun f => f ≠ flag) := by
  show (if flag ∈ s.redFlags then s.redFlags.filter (fun f => f ≠ flag)
        else s.redFlags ++ [flag]) = _
  rw [if_pos h]

/-- The `redFlags` component of a toggle on an unselected flag. -/
theorem toggle_redFlags_neg (s : AppState) (flag : String) (h : flag ∉ s.redFlags) :
    (toggleRedFlag s flag).redFlags = s.redFlags ++ [flag] := by
  show (if flag ∈ s.redFlags then s.redFlags.filter (fun f => f ≠ flag)
        else s.redFlags ++ [flag]) = _
  rw [if_neg h]

/-- Removing a flag absent from `l` from `l ++ [flag]` restores `l`. -/
theorem filter_append_singleton (l : List String) (flag : String) (h : flag ∉ l) :
    (l ++ [flag]).filter (fun f => f ≠ flag) = l := by
  have h1 : l.filter (fun f => f ≠ flag) = l :=
    List.filter_eq_self.mpr fun a ha => decide_eq_true fun he : a = flag => h (he ▸ ha)
  have h2 : ([flag] : List String).filter (fun f => f ≠ flag) = [] := by simp
  rw [List.filter_append, h1, h2, List.append_nil]

/-- C9 (amended): toggling a flag that is not selected twice restores
the state exactly; toggling a selected flag twice restores the
selection as a set (the flag moves to the end of the list); a single
toggle preserves freedom from duplicates; and both resets empty the
selection. -/
theorem c9_toggle_involution :
    (∀ (s : AppState) (flag : String), flag ∉ s.redFlags →
        toggleRedFlag (toggleRedFlag s flag) flag = s) ∧
    (∀ (s : AppState) (flag : String) (x : String),
        x ∈ (toggleRedFlag (toggleRedFlag s flag) flag).redFlags ↔ x ∈ s.redFlags) ∧
    (∀ (s : AppState) (flag : String), s.redFlags.Nodup →
        (toggleRedFlag s flag).redFlags.Nodup) ∧
    (∀ s : AppState,
        (resetSymptomSelection s).redFlags = [] ∧ (resetAll s).redFlags = []) := by
  have hpart1 : ∀ (s : AppState) (flag : String), flag ∉ s.redFlags →
      toggleRedFlag (toggleRedFlag s flag) flag = s := by
    intro s flag h
    have hmem2 : flag ∈ (toggleRedFlag s flag).redFlags := by
      rw [toggle_redFlags_neg s flag h]
      exact List.mem_append_right _ (List.mem_singleton_self flag)
    have e1 : toggleRedFlag (toggleRedFlag s flag) flag =
        { s with redFlags := (toggleRedFlag (toggleRedFlag s flag) flag).redFlags } := rfl
    rw [e1, toggle_redFlags_pos _ flag hmem2, toggle_redFlags_neg s flag h,
      filter_append_singleton _ _ h]
  refine ⟨hpart1, fun s flag x => ?_, fun s flag h => ?_, fun s => ⟨rfl, rfl⟩⟩
  · by_cases hm : flag ∈ s.redFlags
    · have hm2 : flag ∉ (toggleRedFlag s flag).redFlags := by
        rw [toggle_redFlags_pos s flag hm]
        simp
      rw [toggle_redFlags_neg _ _ hm2, toggle_redFlags_pos s flag hm]
      simp only [List.mem_append, List.mem_filter, List.mem_singleton, ne_eq,
        decide_eq_true_eq]
      constructor
      · rintro (⟨hx, _⟩ | rfl)
        · exact hx
        · exact hm
      · intro hx
        by_cases hxf : x = flag
        · exact Or.inr hxf
        · exact Or.inl ⟨hx, by simpa using hxf⟩
    · rw [hpart1 s flag hm]
  · by_cases hm : flag ∈ s.redFlags
    · rw [toggle_redFlags_pos s flag hm]
      exact h.filter _
    · rw [toggle_redFlags_neg s flag hm]
      simp [List.nodup_append, h, hm]

/-- Witness for C9 (amended): double-toggling an unselected flag on the
initial state is the identity. -/
theorem c9_toggle_involution_witness :
    toggleRedFlag (toggleRedFlag initialAppState "chest_pain") "chest_pain" =
      initialAppState :=
  c9_toggle_involution.1 initialAppState "chest_pain" (by decide)

/-- C10: the template helpers are total with a silent empty-string
fallback on every id outside their lookup tables; unknown red-flag
sentences are filtered out before joining; and a report carrying an
unknown red flag synthesizes exactly the same first user message as
the report without it. -/
theorem c10_template_fallbacks :
    (∀ onsetId : String,
        onsetId ∉ onsetMessages.map Prod.fst → getOnsetMessage onsetId = "") ∧
    (∀ triggerId : String,
        triggerId ∉ triggerMessages.map Prod.fst → getTriggerMessage triggerId = "") ∧
    (∀ flagId : String,
        flagId ∉ flagMessages.map Prod.fst → getRedFlagMessage flagId = "") ∧
    (∀ flags : List String,
        (flags.map getRedFlagMessage).filter (fun x => x ≠ "") =
          (flags.filter (fun f => getRedFlagMessage f ≠ "")).map getRedFlagMessage) ∧
    (sendInitialMessageText
        { scenarioReport with redFlags := ["cannot_bear_weight", "not_a_known_flag"] } =
      sendInitialMessageText scenarioReport) := by
  refine ⟨fun i h => tableGet_not_mem _ _ h, fun i h => tableGet_not_mem _ _ h,
    fun i h => tableGet_not_mem _ _ h, fun flags => ?_, by decide⟩
  rw [List.filter_map]
  rfl

/-- Witness for C10 on an id outside every table. -/
theorem c10_template_fallbacks_witness : getOnsetMessage "yesterday_evening" = "" :=
  c10_template_fallbacks.1 "yesterday_evening" (by decide)

/-- C5: the request history is the field-for-field projection (role,
content, `content_en` echoed unchanged) of a suffix of the stored
message list containing its at most 10 most recent entries. -/
theorem c5_history_echo :
    (∀ ms : List ChatMessage, (buildHistory ms).length = min ms.length 10) ∧
    (∀ ms : List ChatMessage,
        ms = ms.take (ms.length - 10) ++ jsSliceLast10 ms ∧
        buildHistory ms = (jsSliceLast10 ms).map historyEntryOf) ∧
    (∀ ms : List ChatMessage, ∀ e ∈ buildHistory ms, ∃ m ∈ ms,
        e.role = m.role ∧ e.content = m.content ∧ e.content_en = m.content_en) := by
  refine ⟨fun ms => ?_, fun ms => ⟨(List.take_append_drop _ ms).symm, rfl⟩,
    fun ms e he => ?_⟩
  · simp only [buildHistory, jsSliceLast10, List.length_map, List.length_drop]
    omega
  · simp only [buildHistory, List.mem_map] at he
    obtain ⟨m, hm, rfl⟩ := he
    exact ⟨m, List.mem_of_mem_drop hm, rfl, rfl, rfl⟩

/-- Witness for C5 at a one-message state. -/
theorem c5_history_echo_witness :
    ∃ m ∈ [demoMsg], (historyEntryOf demoMsg).role = m.role ∧
      (historyEntryOf demoMsg).content = m.content ∧
      (historyEntryOf demoMsg).content_en = m.content_en :=
  c5_history_echo.2.2 [demoMsg] (historyEntryOf demoMsg) (by decide)

/-- C3: the rendered citation block cites only sources whose relevance
score strictly exceeds 0.3, at most the first three qualifying sources
in input order, and is empty when the list is empty or no source
qualifies. -/
theorem c3_citation_filter :
    formatSources [] = "" ∧
    (∀ sources : List RagSource,
        (∀ src ∈ sources, src.relevance_score ≤ scoreThreshold) →
        formatSources sources = "") ∧
    (∀ sources : List RagSource, citedSources sources ≠ [] →
        formatSources sources =
          "\n\n📚 **Kaynaklar:**\n" ++
            joinWith "\n" ((citedSources sources).map sourceLine)) ∧
    (∀ sources : List RagSource,
        (citedSources sources).length ≤ 3 ∧
        (∀ src ∈ citedSources sources, scoreThreshold < src.relevance_score) ∧
        List.Sublist (citedSources sources) sources) := by
  refine ⟨rfl, fun sources h => ?_, fun sources hne => ?_, fun sources =>
    ⟨List.length_take_le 3 _, fun src hs => ?_, ?_⟩⟩
  · have hc : citedSources sources = [] := by
      unfold citedSources
      have : sources.filter (fun s => scoreThreshold < s.relevance_score) = [] :=
        List.filter_eq_nil_iff.mpr fun a ha => by
          simpa using not_lt.mpr (h a ha)
      rw [this, List.take_nil]
    simp only [formatSources, hc, List.map_nil]
    have : joinWith "\n" [] = "" := rfl
    rw [this]
    simp [ite_self]
  · have hlen : ¬sources.length = 0 := by
      intro h0
      apply hne
      rw [List.length_eq_zero.mp h0]
      rfl
    obtain ⟨c, rest, hc⟩ := List.exists_cons_of_ne_nil hne
    have hjoin : joinWith "\n" ((citedSources sources).map sourceLine) ≠ "" := by
      rw [hc, List.map_cons]
      exact joinWith_cons_ne_empty _ _ _ (sourceLine_data_ne_nil c)
    simp only [formatSources, if_neg hlen, if_neg hjoin]
  · have := List.mem_of_mem_take hs
    rw [List.mem_filter] at this
    simpa using this.2
  · exact (List.take_sublist 3 _).trans (List.filter_sublist sources)

/-- Witness for C3: a list holding only a below-threshold source renders
no citation block. -/
theorem c3_citation_filter_witness :
    formatSources [⟨"Baş ağrısı", "KB", "semptom", mkRat 1 4⟩] = "" :=
  c3_citation_filter.2.1 _ (by
    intro src hs
    simp only [List.mem_singleton] at hs
    rw [hs]
    decide)

/-- C6: when the streaming request fails after at least one chunk was
delivered, the incompletely filled assistant message already appended is
updated in place to the error text (same id, timestamp and
`isEmergency: false` as the streaming placeholder — neither removed nor
left truncated, and no second assistant message is appended); when it
fails before any chunk, a fresh assistant error message is appended
instead; and in both cases `isLoading` and `isStreaming` end up
`false`. -/
theorem c6_streaming_error_recovery :
    (∀ (s : AppState) (newId : String) (ts : Nat) (c : String) (cs : List String),
        (streamingFailureRun s (c :: cs) newId ts).messages =
          s.messages ++
            [{ id := newId, role := Role.assistant, content := errorText,
               content_en := none, timestamp := ts, symptomContext := none,
               isEmergency := some false, imageUrl := none }]) ∧
    (∀ (s : AppState) (newId : String) (ts : Nat),
        (streamingFailureRun s [] newId ts).messages =
          s.messages ++
            [{ id := newId, role := Role.assistant, content := errorText,
               content_en := none, timestamp := ts, symptomContext := none,
               isEmergency := none, imageUrl := none }]) ∧
    (∀ (s : AppState) (chunks : List String) (newId : String) (ts : Nat),
        (streamingFailureRun s chunks newId ts).isLoading = false ∧
        (streamingFailureRun s chunks newId ts).isStreaming = false) := by
  refine ⟨fun s newId ts c cs => ?_, fun s newId ts => rfl,
    fun s chunks newId ts => ⟨rfl, rfl⟩⟩
  have hfirst : runChunks { s with isLoading := true } (c :: cs) newId ts =
      cs.foldl (chunkStep newId ts)
        (updateLastMessage
          (addMessage { s with isLoading := true, isStreaming := true }
            emptyAssistantMessage newId ts) c, true) := rfl
  have hmsgs : (updateLastMessage
      (addMessage { s with isLoading := true, isStreaming := true }
        emptyAssistantMessage newId ts) c).messages =
      s.messages ++ [{ mkChatMessage emptyAssistantMessage newId ts with content := c }] := by
    simp [updateLastMessage, addMessage, updateLast_append]
  obtain ⟨hflag, hres⟩ := foldChunks_started newId ts cs _ s.messages
    { mkChatMessage emptyAssistantMessage newId ts with content := c } hmsgs
  show (if (runChunks { s with isLoading := true } (c :: cs) newId ts).2 then
      updateLastMessage (runChunks { s with isLoading := true } (c :: cs) newId ts).1
        errorText
    else
      addMessage (runChunks { s with isLoading := true } (c :: cs) newId ts).1
        { role := Role.assistant, content := errorText } newId ts).messages = _
  rw [hfirst] at *
  rw [if_pos hflag, updateLastMessage_snoc _ _ _ _ hres]
  rfl

/-- C2: in both delivery modes the chunk updates reconstruct the final
text exactly.  The typewriter loop of `streamMessage` ends with the
last assistant message holding `fullContent` character for character,
and the cumulative SSE chunk loop of `sendToAPIWithStreaming` ends with
the last assistant message holding the last cumulative chunk content;
in both modes exactly one assistant message is appended. -/
theorem c2_stream_reconstruction :
    (∀ (s : AppState) (full : String) (em : Option Bool) (cen : Option String)
        (newId : String) (ts : Nat),
        (streamMessageRun s full em cen newId ts).messages =
          s.messages ++
            [{ id := newId, role := Role.assistant, content := full,
               content_en := cen, timestamp := ts, symptomContext := none,
               isEmergency := em, imageUrl := none }]) ∧
    (∀ (s : AppState) (newId : String) (ts : Nat) (c : String) (cs : List String),
        (runChunks s (c :: cs) newId ts).1.messages =
          s.messages ++
            [{ id := newId, role := Role.assistant, content := cs.getLastD c,
               content_en := none, timestamp := ts, symptomContext := none,
               isEmergency := some false, imageUrl := none }]) := by
  constructor
  · intro s full em cen newId ts
    have hm : (addMessage { s with isStreaming := true }
          (typewriterSeedMessage cen em) newId ts).messages =
        s.messages ++ [mkChatMessage (typewriterSeedMessage cen em) newId ts] := rfl
    have hloop := typewriterLoop_messages full 0 _ s.messages _ hm
    show (typewriterLoop full 0 (addMessage { s with isStreaming := true }
      (typewriterSeedMessage cen em) newId ts)).messages = _
    rw [hloop]
    by_cases h0 : 0 < full.length
    · rw [if_pos h0]
      rfl
    · rw [if_neg h0]
      have hfull : full = "" := by
        apply String.ext
        have hl : full.data.length = 0 := Nat.le_zero.mp (not_lt.mp h0)
        rw [List.length_eq_zero.mp hl]
      rw [hfull]
      rfl
  · intro s newId ts c cs
    have hfirst : runChunks s (c :: cs) newId ts =
        cs.foldl (chunkStep newId ts)
          (updateLastMessage
            (addMessage { s with isStreaming := true }
              emptyAssistantMessage newId ts) c, true) := rfl
    have hmsgs : (updateLastMessage
        (addMessage { s with isStreaming := true }
          emptyAssistantMessage newId ts) c).messages =
        s.messages ++
          [{ mkChatMessage emptyAssistantMessage newId ts with content := c }] := by
      simp [updateLastMessage, addMessage, updateLast_append]
    obtain ⟨_, hres⟩ := foldChunks_started newId ts cs _ s.messages
      { mkChatMessage emptyAssistantMessage newId ts with content := c } hmsgs
    rw [hfirst, hres]
    rfl

/-- C1: completing structured intake synthesizes exactly one user turn
whose content follows the deterministic per-field template — the
region/symptom sentence, then the severity sentence, then the onset
sentence, then the optional trigger sentence, then one sentence per
selected red flag in selection order, then the optional notes; in the
spec scenario (severity 7, onset `2_3_days`, red flag
`cannot_bear_weight`) the synthesized turn carries the four facts in
exactly that order. -/
theorem c1_intake_turn_synthesis :
    (∀ (s : AppState) (report : SymptomReport) (newId : String) (ts : Nat)
        (ri : RegionInfo) (si : SymptomInfo),
        tableFind BODY_REGIONS report.region = some ri →
        tableFind SYMPTOMS report.symptom = some si →
        sendInitialMessageState s report newId ts =
          some { s with messages := s.messages ++
            [{ id := newId, role := Role.user,
               content :=
                 (ri.name_tr ++ " bölgemde " ++ jsToLower si.name_tr ++ " var.") ++
                 (" Şiddeti 10 üzerinden " ++ toString report.severity ++ ".") ++
                 (" " ++ getOnsetMessage report.onset) ++
                 (match report.trigger with
                  | some t => if t = "" then "" else " " ++ getTriggerMessage t
                  | none => "") ++
                 (if report.redFlags.length > 0 then
                    " " ++ joinWith " "
                      ((report.redFlags.map getRedFlagMessage).filter (fun x => x ≠ ""))
                  else "") ++
                 (match report.additionalNotes with
                  | some n => if n = "" then "" else " " ++ n
                  | none => ""),
               content_en := none, timestamp := ts, symptomContext := some report,
               isEmergency := none, imageUrl := none }] }) ∧
    sendInitialMessageText scenarioReport =
      some ("Sol Kaval Kemiği bölgemde ağrı var." ++ " Şiddeti 10 üzerinden 7." ++
        " 2-3 gündür devam ediyor." ++ " Üzerine basamıyorum.") := by
  refine ⟨fun s report newId ts ri si hri hsi => ?_, by decide⟩
  simp only [sendInitialMessageState, sendInitialMessageText, hri, hsi, Option.map_some']
  rw [initialUserMessage_decomposition]
  rfl

/-- Witness for C1 at the spec scenario report on the initial state. -/
theorem c1_intake_turn_synthesis_witness :
    sendInitialMessageState initialAppState scenarioReport "id-1" 0 =
      some { initialAppState with messages :=
        [{ id := "id-1", role := Role.user,
           content := "Sol Kaval Kemiği bölgemde ağrı var. Şiddeti 10 üzerinden 7. 2-3 gündür devam ediyor. Üzerine basamıyorum.",
           content_en := none, timestamp := 0, symptomContext := some scenarioReport,
           isEmergency := none, imageUrl := none }] } := by
  have h := c1_intake_turn_synthesis.1 initialAppState scenarioReport "id-1" 0
    ⟨"Sol Kaval Kemiği", "Left Shin (Tibia)"⟩ ⟨"Ağrı", "Pain"⟩ (by decide) (by decide)
  exact h

/-- C7 (modelled from the spec; the source of the detector,
`backend/app/health_filter.py`, is not under `src/`): emergency
detection is negation-aware — «no chest pain, just tired» does not set
the emergency flag while «I have chest pain» does. -/
theorem c7_negation_aware_emergency :
    isEmergencyText "no chest pain, just tired" = false ∧
    isEmergencyText "I have chest pain" = true := by
  constructor
  · decide
  · decide

end MedRAG



